import Mathlib

/-!
Shallow embedding of the weather-cache subsystem of the `nothingtodo`
HTTP server (Go). The embedded functions mirror, line by line, the Go
functions `fetchWeatherFromAPI`, `loadWeatherCache`, `saveWeatherCache`,
`updateWeatherCache` and `getWeather` from the source, together with the
JSON (un)marshalling semantics of `encoding/json` that they rely on.

Modelling conventions:
* byte strings are abstracted by their JSON parse result (`FileBytes`):
  either `gibberish` (bytes that are not valid JSON, e.g. truncated JSON)
  or `json j` (bytes whose parse yields the AST `j`);
* `time.Time` values are abstracted as `Nat` ticks; their (injective)
  RFC3339 serialization is modelled as an injective encoding into a JSON
  leaf, decoded back by the matching partial inverse;
* the network is an oracle `outcomes : Nat → AttemptOutcome` giving, for
  each attempt number, what `httpClient.Do` returns;
* `time.Sleep` calls are recorded (in seconds) rather than performed, and
  each HTTP GET is counted.
-/

namespace NothingToDo

/-- JSON abstract syntax tree, the target of parsing a byte string. -/
inductive Json where
  | null : Json
  | bool (b : Bool) : Json
  | num (n : Int) : Json
  | str (s : String) : Json
  | arr (elems : List Json) : Json
  | obj (fields : List (String × Json)) : Json
  deriving Repr

/-- Byte content of a file or HTTP body, abstracted by its JSON parse
result: `gibberish` stands for any byte string that is not valid JSON
(truncated JSON included); `json j` stands for any byte string whose
JSON parse yields the AST `j`. -/
inductive FileBytes where
  | gibberish : FileBytes
  | json (j : Json) : FileBytes
  deriving Repr

/-- The shared in-memory weather cache (the Go global `weatherCache`
struct): location, temperature (°C), condition, humidity (%), and the
update timestamp. -/
structure WeatherCache where
  location : String
  temperature : Int
  condition : String
  humidity : Int
  updated : Nat
  deriving Repr, DecidableEq

/-- The zero value of the cache struct, its state in a fresh process. -/
def emptyCache : WeatherCache := ⟨"", 0, "", 0, 0⟩

/-- Go constant `weatherLocation`. -/
def weatherLocation : String := "Sleman"

/-- Go constant `weatherCacheFile`. -/
def weatherCacheFile : String := "data/weather_cache.json"

/-- Go constant `maxRetries`. -/
def maxRetries : Nat := 3

/-! ### encoding/json field access

`encoding/json` decodes an object by matching keys; on duplicate keys the
last occurrence wins, which `lookupField` reproduces with a left fold. -/

/-- Last-occurrence lookup of a key in a JSON object, as `encoding/json`
does for duplicate keys. -/
def lookupField (fields : List (String × Json)) (k : String) : Option Json :=
  fields.foldl (fun acc p => if p.1 = k then some p.2 else acc) none

/-- Decode a JSON value into a Go `string` field. A missing field or JSON
`null` leaves the zero value `""`; any non-string JSON value is an
unmarshal error. -/
def decStr : Option Json → Option String
  | none => some ""
  | some .null => some ""
  | some (.str s) => some s
  | some _ => none

/-- Decode a JSON value into a Go `int` field. A missing field or JSON
`null` leaves the zero value `0`; a JSON number decodes to its value; any
other JSON value is an unmarshal error. -/
def decInt : Option Json → Option Int
  | none => some 0
  | some .null => some 0
  | some (.num n) => some n
  | some _ => none

/-- Decode a JSON value into a Go `time.Time` field (modelled as `Nat`
ticks). Missing or `null` leaves the zero time; the serialized form (an
injective leaf encoding, standing for the RFC3339 string) decodes back;
anything else is an unmarshal error. -/
def decTime : Option Json → Option Nat
  | none => some 0
  | some .null => some 0
  | some (.num i) => if i < 0 then none else some i.toNat
  | some _ => none

/-- Serialize a `time.Time` (modelled as `Nat` ticks) to its JSON leaf,
standing for the RFC3339 string `encoding/json` produces. -/
def encTime (t : Nat) : Json := .num (t : Int)

/-! ### The cache file: marshal and unmarshal

The anonymous struct in `loadWeatherCache` / `saveWeatherCache` has JSON
tags `location`, `temperature`, `condition`, `humidity`, `updated`. -/

/-- `json.MarshalIndent` of the cached struct: an object with the five
tagged fields in declaration order. -/
def marshalCache (c : WeatherCache) : Json :=
  .obj [("location", .str c.location),
        ("temperature", .num c.temperature),
        ("condition", .str c.condition),
        ("humidity", .num c.humidity),
        ("updated", encTime c.updated)]

/-- `json.Unmarshal` of a JSON AST into the cached struct. Top-level
`null` is a no-op on the zero-valued target; a top-level non-object is an
error; otherwise each field decodes per `encoding/json` rules. -/
def decodeCache : Json → Option WeatherCache
  | .null => some emptyCache
  | .obj fields => do
      let loc ← decStr (lookupField fields "location")
      let temp ← decInt (lookupField fields "temperature")
      let cond ← decStr (lookupField fields "condition")
      let hum ← decInt (lookupField fields "humidity")
      let upd ← decTime (lookupField fields "updated")
      some ⟨loc, temp, cond, hum, upd⟩
  | _ => none

/-- `json.Unmarshal` of raw file bytes into the cached struct: invalid
JSON is an error, valid JSON decodes per `decodeCache`. -/
def unmarshalCache : FileBytes → Option WeatherCache
  | .gibberish => none
  | .json j => decodeCache j

/-! ### loadWeatherCache / saveWeatherCache / getWeather -/

/-- Go `loadWeatherCache`, as a function of the cache file state
(`none` = `os.ReadFile` error, file missing) and the current in-memory
cache. Returns the Go boolean result and the in-memory cache afterwards.
On success all five fields are installed from the parsed struct. -/
def loadWeatherCache (file : Option FileBytes) (cache : WeatherCache) :
    Bool × WeatherCache :=
  match file with
  | none => (false, cache)
  | some data =>
      match unmarshalCache data with
      | none => (false, cache)
      | some cached => (true, cached)

/-- Go `saveWeatherCache`, success path: the byte content that ends up at
the canonical cache path (written to a temp file, then renamed). -/
def saveWeatherCache (cache : WeatherCache) : FileBytes :=
  .json (marshalCache cache)

/-- Go `getWeather`: under a read lock, returns the sentinel tuple when
the cached location is the empty string, otherwise the cached snapshot. -/
def getWeather (c : WeatherCache) : String × Int × String × Int :=
  if c.location = "" then (weatherLocation, 0, "loading...", 0)
  else (c.location, c.temperature, c.condition, c.humidity)

/-! ### The wttr.in response shape and its unmarshalling -/

/-- One `{"value": ...}` entry, as in `areaName` and `weatherDesc`. -/
structure NameValue where
  value : String
  deriving Repr, DecidableEq

/-- One entry of `nearest_area`. -/
structure AreaEntry where
  areaName : List NameValue
  deriving Repr, DecidableEq

/-- One entry of `current_condition`: `temp_C`, `humidity` (both strings
in the API) and `weatherDesc`. -/
structure CurrentCondition where
  tempC : String
  humidity : String
  weatherDesc : List NameValue
  deriving Repr, DecidableEq

/-- The Go `wttrResponse` struct. -/
structure WttrResponse where
  nearestArea : List AreaEntry
  currentCondition : List CurrentCondition
  deriving Repr, DecidableEq

/-- Decode one `NameValue` object; array-element `null` leaves the zero
struct. -/
def decNameValue : Json → Option NameValue
  | .null => some ⟨""⟩
  | .obj fields => (decStr (lookupField fields "value")).map NameValue.mk
  | _ => none

/-- Decode a `[]NameValue` slice field: missing or `null` gives the nil
slice, an array decodes elementwise, anything else is an error. -/
def decNVList : Option Json → Option (List NameValue)
  | none => some []
  | some .null => some []
  | some (.arr xs) => xs.mapM decNameValue
  | some _ => none

/-- Decode one `nearest_area` entry. -/
def decAreaEntry : Json → Option AreaEntry
  | .null => some ⟨[]⟩
  | .obj fields => (decNVList (lookupField fields "areaName")).map AreaEntry.mk
  | _ => none

/-- Decode one `current_condition` entry. -/
def decCurrentCondition : Json → Option CurrentCondition
  | .null => some ⟨"", "", []⟩
  | .obj fields => do
      let t ← decStr (lookupField fields "temp_C")
      let h ← decStr (lookupField fields "humidity")
      let wd ← decNVList (lookupField fields "weatherDesc")
      some ⟨t, h, wd⟩
  | _ => none

/-- `json.Unmarshal` of a JSON AST into `wttrResponse`. -/
def decodeWttr : Json → Option WttrResponse
  | .null => some ⟨[], []⟩
  | .obj fields => do
      let na ← match lookupField fields "nearest_area" with
        | none => some []
        | some .null => some []
        | some (.arr xs) => xs.mapM decAreaEntry
        | some _ => none
      let cc ← match lookupField fields "current_condition" with
        | none => some []
        | some .null => some []
        | some (.arr xs) => xs.mapM decCurrentCondition
        | some _ => none
      some ⟨na, cc⟩
  | _ => none

/-- `json.Unmarshal` of a response body into `wttrResponse`. -/
def parseWttr : FileBytes → Option WttrResponse
  | .gibberish => none
  | .json j => decodeWttr j

/-! ### strconv.Atoi

`strconv.Atoi(s)` is `ParseInt(s, 10, 0)`: an optional sign followed by
at least one decimal digit. On a syntax error it returns `0` (with an
error the Go code discards); on range overflow it returns the value
clamped to the 64-bit int range (again with a discarded error). -/

/-- Whether `s` is syntactically a base-10 integer for `strconv.ParseInt`:
an optional `+`/`-` sign followed by one or more ASCII digits. -/
def goIsNumeral (s : String) : Bool :=
  let digits := match s.toList with
    | '+' :: rest => rest
    | '-' :: rest => rest
    | cs => cs
  !digits.isEmpty && digits.all (·.isDigit)

/-- Largest Go `int` (64-bit). -/
def goMaxInt : Int := 2 ^ 63 - 1

/-- Smallest Go `int` (64-bit). -/
def goMinInt : Int := -(2 ^ 63)

/-- `strconv.Atoi` with its error discarded, as the Go code does via
`temp, _ := strconv.Atoi(...)`: `0` on a syntax error, the clamped value
on range overflow, the exact value otherwise. -/
def goAtoi (s : String) : Int :=
  if goIsNumeral s then
    let (sign, digits) : Int × List Char := match s.toList with
      | '+' :: rest => (1, rest)
      | '-' :: rest => (-1, rest)
      | cs => (1, cs)
    let v : Int := sign * (digits.foldl (fun acc c => 10 * acc + (c.toNat - '0'.toNat)) 0 : Nat)
    if v > goMaxInt then goMaxInt
    else if v < goMinInt then goMinInt
    else v
  else 0

/-! ### fetchWeatherFromAPI -/

/-- What one `httpClient.Do` call returns: a transport error (nil
response), or a response with a status code and body bytes. -/
inductive AttemptOutcome where
  | transportError : AttemptOutcome
  | response (status : Nat) (body : FileBytes) : AttemptOutcome
  deriving Repr

/-- The errors `fetchWeatherFromAPI` can return, one constructor per
`return` site in the Go source. -/
inductive FetchError where
  | failedAfterRetries (n : Nat) : FetchError
  | httpStatus (code : Nat) : FetchError
  | unmarshalError : FetchError
  | noCurrentCondition : FetchError
  deriving Repr, DecidableEq

/-- The message text of each fetch error, following the Go format strings
(`%w`-wrapped transport-error text elided). -/
def errMsg : FetchError → String
  | .failedAfterRetries n => "failed after " ++ toString n ++ " retries"
  | .httpStatus code => "HTTP " ++ toString code ++ " after retries"
  | .unmarshalError => "invalid JSON"
  | .noCurrentCondition => "no current condition"

/-- Field extraction from a parsed response, from the tail of
`fetchWeatherFromAPI`: `cc` is `data.CurrentCondition[0]`; location
defaults to `weatherLocation` unless a first nearest-area name exists;
condition defaults to `"Unknown"` on an empty `weatherDesc`; the numeric
strings go through `strconv.Atoi` with errors discarded. -/
def extractReading (data : WttrResponse) (cc : CurrentCondition) :
    String × Int × String × Int :=
  let location := match data.nearestArea with
    | a :: _ =>
        match a.areaName with
        | n :: _ => n.value
        | [] => weatherLocation
    | [] => weatherLocation
  let condition := match cc.weatherDesc with
    | w :: _ => w.value
    | [] => "Unknown"
  (location, goAtoi cc.tempC, condition, goAtoi cc.humidity)

/-- The loop's break condition `err == nil && resp.StatusCode ==
http.StatusOK` on one `Do` outcome. -/
def isHit : AttemptOutcome → Bool
  | .transportError => false
  | .response status _ => status == 200

/-- The retry loop of `fetchWeatherFromAPI`. `attempt` is the 1-based
attempt number, `remaining` the number of attempts still allowed
(initially `maxRetries`). Returns the number of GETs issued, the list of
sleeps (in seconds, in order), and the final `(resp, err)` pair as the
outcome of the last `Do` call. The loop breaks early exactly on
`err == nil && resp.StatusCode == 200`, and sleeps
`2^(attempt-1)` seconds only when `attempt < maxRetries`. -/
def retryLoop (outcomes : Nat → AttemptOutcome) :
    Nat → Nat → Nat × List Nat × AttemptOutcome
  | _, 0 => (0, [], .transportError)
  | attempt, remaining + 1 =>
    let o := outcomes attempt
    if isHit o then (1, [], o)
    else if remaining = 0 then (1, [], o)
    else
      let (g, ds, fin) := retryLoop outcomes (attempt + 1) remaining
      (g + 1, 2 ^ (attempt - 1) :: ds, fin)

/-- A run of `fetchWeatherFromAPI`: how many HTTP GETs were issued, the
sleeps performed between attempts, and the returned value. -/
structure FetchRun where
  gets : Nat
  delays : List Nat
  result : Except FetchError (String × Int × String × Int)
  deriving Repr

/-- The post-loop part of `fetchWeatherFromAPI`, on the final `(resp,
err)`: `err != nil` yields the retries error; a non-200 status yields the
HTTP-status error; then the capped body is unmarshalled, an empty
`current_condition` is an error, and otherwise the fields are
extracted. -/
def finishFetch : AttemptOutcome → Except FetchError (String × Int × String × Int)
  | .transportError => .error (.failedAfterRetries maxRetries)
  | .response code body =>
      if code = 200 then
        match parseWttr body with
        | none => .error .unmarshalError
        | some data =>
            match data.currentCondition with
            | [] => .error .noCurrentCondition
            | cc :: _ => .ok (extractReading data cc)
      else .error (.httpStatus code)

/-- Go `fetchWeatherFromAPI`, as a function of the per-attempt network
oracle. -/
def fetchWeatherFromAPI (outcomes : Nat → AttemptOutcome) : FetchRun :=
  let (g, ds, fin) := retryLoop outcomes 1 maxRetries
  { gets := g, delays := ds, result := finishFetch fin }

/-! ### updateWeatherCache and the system state -/

/-- The state `updateWeatherCache` can affect: the in-memory cache and
the byte content at the canonical cache path (`none` = no file). -/
structure SysState where
  cache : WeatherCache
  file : Option FileBytes
  deriving Repr

/-- Go `updateWeatherCache`: fetch; on error log and return with nothing
changed; on success replace every cache field under the write lock (with
`Updated = time.Now()`, here the parameter `now`) and then persist via
`saveWeatherCache` (whose own failure, `saveOk = false`, leaves the
canonical file unchanged and only logs). -/
def updateWeatherCache (outcomes : Nat → AttemptOutcome) (now : Nat)
    (saveOk : Bool) (s : SysState) : SysState :=
  match (fetchWeatherFromAPI outcomes).result with
  | .error _ => s
  | .ok (loc, temp, cond, hum) =>
      let c : WeatherCache := ⟨loc, temp, cond, hum, now⟩
      if saveOk then { cache := c, file := some (saveWeatherCache c) }
      else { cache := c, file := s.file }

/-! ### Lock-and-store traces of the cache writers

Straight-line event traces of the two code paths that assign to the
global `weatherCache`, one event per Go statement, in source order. -/

/-- The five fields of the shared cache struct. -/
inductive Field where
  | location | temperature | condition | humidity | updated
  deriving Repr, DecidableEq

/-- Events on the shared cache: acquiring/releasing `weatherMu` in write
or read mode, and assigning one field of `weatherCache`. -/
inductive LockEvent where
  | lockW | unlockW | lockR | unlockR
  | setField (f : Field)
  deriving Repr, DecidableEq

/-- The write section of `updateWeatherCache`:
`weatherMu.Lock()`, the five field assignments in source order,
`weatherMu.Unlock()`. -/
def updateWriteTrace : List LockEvent :=
  [.lockW, .setField .location, .setField .temperature, .setField .condition,
   .setField .humidity, .setField .updated, .unlockW]

/-- The install section of `loadWeatherCache`: `weatherMu.Lock()`, the
five field assignments in source order, `weatherMu.Unlock()`. -/
def loadInstallTrace : List LockEvent :=
  [.lockW, .setField .location, .setField .temperature, .setField .condition,
   .setField .humidity, .setField .updated, .unlockW]

/-- All five cache fields. -/
def allFields : List Field :=
  [.location, .temperature, .condition, .humidity, .updated]

/-- A trace is one exclusive-lock critical section that assigns every
cache field: it opens with `Lock`, closes with `Unlock`, everything in
between is a field store, and all five fields are stored. -/
def atomicFullWrite (tr : List LockEvent) : Bool :=
  match tr with
  | .lockW :: rest =>
      (rest.getLast? = some .unlockW) &&
      rest.dropLast.all (fun e => match e with | .setField _ => true | _ => false) &&
      allFields.all (fun f => rest.contains (.setField f))
  | _ => false

/-! ### Filesystem operation trace of saveWeatherCache -/

/-- Filesystem-affecting steps of `saveWeatherCache`, plus the read-lock
events: one constructor per Go call. -/
inductive SaveStep where
  | rLock | rUnlock
  | mkdirAll (dir : String)
  | writeFile (path : String) (content : FileBytes)
  | rename (src dst : String)
  deriving Repr

/-- The temp path `weatherCacheFile + ".tmp"`. -/
def tempFile : String := weatherCacheFile ++ ".tmp"

/-- Go `saveWeatherCache` as the ordered trace of its lock and
filesystem steps, with the success of `os.MkdirAll` and `os.WriteFile`
as oracles (`os.Rename` ends the function either way). The whole body
runs between `RLock` and the deferred `RUnlock`; an early error return
skips the remaining steps. Also returns whether the function returned
nil. -/
def saveWeatherCacheTrace (cache : WeatherCache) (mkdirOk writeOk : Bool) :
    List SaveStep × Bool :=
  if !mkdirOk then ([.rLock, .mkdirAll "data", .rUnlock], false)
  else
    let content := FileBytes.json (marshalCache cache)
    if !writeOk then
      ([.rLock, .mkdirAll "data", .writeFile tempFile content, .rUnlock], false)
    else
      ([.rLock, .mkdirAll "data", .writeFile tempFile content,
        .rename tempFile weatherCacheFile, .rUnlock], true)

/-- Split a character list on a separator character. -/
def splitOnChar (sep : Char) : List Char → List (List Char)
  | [] => [[]]
  | c :: cs =>
      let r := splitOnChar sep cs
      if c = sep then [] :: r
      else
        match r with
        | [] => [[c]]
        | g :: gs => (c :: g) :: gs

/-- Join character-list segments with slashes. -/
def joinSlash : List (List Char) → List Char
  | [] => []
  | [g] => g
  | g :: gs => g ++ '/' :: joinSlash gs

/-- The directory of a slash-separated path, as `filepath.Dir` gives it
for the relative paths used here. -/
def dirOf (p : String) : String :=
  let parts := splitOnChar '/' p.toList
  if parts.length ≤ 1 then "." else ⟨joinSlash parts.dropLast⟩

/-! ### Derived notions used to state the claims -/

/-- The body of a response outcome. -/
def bodyOf : AttemptOutcome → Option FileBytes
  | .transportError => none
  | .response _ b => some b

/-- The first attempt (1-based, among the `maxRetries` allowed) whose
outcome is a 200 response — the attempt whose body decides the fetch. -/
def decidingAttempt (outcomes : Nat → AttemptOutcome) : Option Nat :=
  if isHit (outcomes 1) then some 1
  else if isHit (outcomes 2) then some 2
  else if isHit (outcomes 3) then some 3
  else none

/-- A response body that unmarshals and has at least one
current-condition entry. -/
def goodBody : FileBytes → Bool
  | b => match parseWttr b with
    | none => false
    | some data => !data.currentCondition.isEmpty

/-- Whether the second character list starts with the first. -/
def startsWithSeq : List Char → List Char → Bool
  | [], _ => true
  | _ :: _, [] => false
  | p :: ps, c :: cs => p = c && startsWithSeq ps cs

/-- Whether a character list occurs as a contiguous subsequence. -/
def containsSeq (pat : List Char) : List Char → Bool
  | [] => pat.isEmpty
  | c :: cs => startsWithSeq pat (c :: cs) || containsSeq pat cs

/-- `s` mentions the decimal numeral of `n` as a substring. -/
def mentionsNat (s : String) (n : Nat) : Bool :=
  containsSeq (toString n).toList s.toList

/-- Go condition for keeping the default location, negated: the response
has no nearest-area name when `nearest_area` is empty or its first
entry's `areaName` is empty. -/
def noAreaName (data : WttrResponse) : Bool :=
  match data.nearestArea with
  | [] => true
  | a :: _ => a.areaName.isEmpty

/-- A well-formed wttr.in body used as a concrete test vector. -/
def sampleBody : Json :=
  .obj [("nearest_area", .arr [.obj [("areaName", .arr [.obj [("value", .str "Sleman")]])]]),
        ("current_condition", .arr [.obj [("temp_C", .str "25"), ("humidity", .str "80"),
          ("weatherDesc", .arr [.obj [("value", .str "Sunny")]])]])]

/-- A wttr.in body whose first nearest-area name is the empty string but
whose current condition is well-formed. -/
def emptyAreaNameBody : Json :=
  .obj [("nearest_area", .arr [.obj [("areaName", .arr [.obj [("value", .str "")]])]]),
        ("current_condition", .arr [.obj [("temp_C", .str "25"), ("humidity", .str "80"),
          ("weatherDesc", .arr [.obj [("value", .str "Sunny")]])]])]

/-- A wttr.in body exercising every extraction default: no
`nearest_area`, empty `weatherDesc`, non-numeric `temp_C` and
`humidity`. -/
def defaultsBody : Json :=
  .obj [("current_condition", .arr [.obj [("temp_C", .str "abc"), ("humidity", .str ""),
          ("weatherDesc", .arr [])]])]

/-! ## Helper lemmas -/

/-- Unmarshalling the marshalled cache struct restores every field. -/
theorem decodeCache_marshalCache (c : WeatherCache) :
    decodeCache (marshalCache c) = some c := by
  simp only [marshalCache, decodeCache, encTime, lookupField, List.foldl,
    decStr, decInt, decTime]
  norm_num
  rfl

/-- The three-attempt retry loop, case by case on which attempt first
satisfies the break condition. -/
theorem retryLoop_three (outcomes : Nat → AttemptOutcome) :
    retryLoop outcomes 1 3 =
      if isHit (outcomes 1) then (1, [], outcomes 1)
      else if isHit (outcomes 2) then (2, [1], outcomes 2)
      else (3, [1, 2], outcomes 3) := by
  by_cases h1 : isHit (outcomes 1)
  · simp [retryLoop, h1]
  · by_cases h2 : isHit (outcomes 2)
    · simp [retryLoop, h1, h2]
    · simp [retryLoop, h1, h2]

/-- A fetch run, case by case on which attempt first hits 200. -/
theorem fetch_cases (outcomes : Nat → AttemptOutcome) :
    fetchWeatherFromAPI outcomes =
      if isHit (outcomes 1) then ⟨1, [], finishFetch (outcomes 1)⟩
      else if isHit (outcomes 2) then ⟨2, [1], finishFetch (outcomes 2)⟩
      else ⟨3, [1, 2], finishFetch (outcomes 3)⟩ := by
  unfold fetchWeatherFromAPI
  rw [show maxRetries = 3 from rfl, retryLoop_three]
  by_cases h1 : isHit (outcomes 1) <;> by_cases h2 : isHit (outcomes 2) <;>
    simp [h1, h2]

/-- When some attempt hits 200, the fetch result is decided by the first
such attempt. -/
theorem fetch_deciding (outcomes : Nat → AttemptOutcome) (i : Nat)
    (hi : decidingAttempt outcomes = some i) :
    (fetchWeatherFromAPI outcomes).result = finishFetch (outcomes i) := by
  rw [fetch_cases]
  unfold decidingAttempt at hi
  by_cases h1 : isHit (outcomes 1)
  · simp [h1] at hi ⊢
    rw [← hi]
  · by_cases h2 : isHit (outcomes 2)
    · simp [h1, h2] at hi ⊢
      rw [← hi]
    · by_cases h3 : isHit (outcomes 3)
      · simp [h1, h2, h3] at hi ⊢
        rw [← hi]
      · simp [h1, h2, h3] at hi

/-- A non-numeral string goes to `0` through `strconv.Atoi` with the
error discarded. -/
theorem goAtoi_of_not_numeral (s : String) (h : goIsNumeral s = false) :
    goAtoi s = 0 := by
  simp [goAtoi, h]

/-- The post-loop processing yields a value exactly when the final
outcome is a 200 response whose body unmarshals with a nonempty
current-condition list. -/
theorem finishFetch_ok_iff (o : AttemptOutcome) :
    (∃ r, finishFetch o = .ok r) ↔
    (isHit o = true ∧ ∃ b, bodyOf o = some b ∧ goodBody b = true) := by
  cases o with
  | transportError => simp [finishFetch, isHit, bodyOf]
  | response code body =>
      by_cases hc : code = 200
      · subst hc
        simp only [finishFetch, if_pos rfl, isHit, bodyOf, beq_self_eq_true,
          true_and]
        cases hp : parseWttr body with
        | none => simp [goodBody, hp]
        | some data =>
            cases hcc : data.currentCondition with
            | nil => simp [goodBody, hp, hcc]
            | cons cc rest => simp [goodBody, hp, hcc]
      · simp [finishFetch, hc, isHit]

/-- The deciding attempt satisfies the break condition. -/
theorem decidingAttempt_isHit (outcomes : Nat → AttemptOutcome) (i : Nat)
    (hi : decidingAttempt outcomes = some i) : isHit (outcomes i) = true := by
  unfold decidingAttempt at hi
  by_cases h1 : isHit (outcomes 1)
  · rw [if_pos h1] at hi
    obtain rfl := Option.some.inj hi
    exact h1
  · rw [if_neg h1] at hi
    by_cases h2 : isHit (outcomes 2)
    · rw [if_pos h2] at hi
      obtain rfl := Option.some.inj hi
      exact h2
    · rw [if_neg h2] at hi
      by_cases h3 : isHit (outcomes 3)
      · rw [if_pos h3] at hi
        obtain rfl := Option.some.inj hi
        exact h3
      · rw [if_neg h3] at hi
        exact absurd hi (by simp)

/-! ## Claims -/

/-- C2: for every weather reading, `saveToDisk` followed by
`loadFromDisk` in a fresh process reproduces exactly the same reading —
every field equal to the saved one — and `loadFromDisk` returns
`true`. -/
theorem save_then_load_roundTrip (r : WeatherCache) :
    loadWeatherCache (some (saveWeatherCache r)) emptyCache = (true, r) := by
  simp [loadWeatherCache, saveWeatherCache, unmarshalCache,
    decodeCache_marshalCache]

/-- C4: whenever the fetch returns an error, the refresh cycle is
skipped — the in-memory cache and the on-disk cache file are both left
exactly as they were. -/
theorem fetch_error_skips_cycle (outcomes : Nat → AttemptOutcome)
    (now : Nat) (saveOk : Bool) (s : SysState) (e : FetchError)
    (h : (fetchWeatherFromAPI outcomes).result = .error e) :
    updateWeatherCache outcomes now saveOk s = s := by
  unfold updateWeatherCache
  rw [h]

/-- Witness for C4: a run of three straight HTTP 500 responses leaves a
concrete populated state untouched. -/
theorem fetch_error_skips_cycle_witness :
    updateWeatherCache (fun _ => .response 500 .gibberish) 99 true
      ⟨⟨"x", 1, "y", 2, 3⟩, none⟩ = ⟨⟨"x", 1, "y", 2, 3⟩, none⟩ :=
  fetch_error_skips_cycle _ 99 true _ (.httpStatus 500) rfl

/-- C5: `loadFromDisk` returns `false` and leaves the in-memory cache
unchanged when the cache file is missing or its contents do not
unmarshal (truncated JSON included), and returns `true` installing the
parsed reading exactly when the file exists and unmarshals. -/
theorem loadFromDisk_spec (file : Option FileBytes) (cache : WeatherCache) :
    ((loadWeatherCache file cache).1 = true ↔
      ∃ b r, file = some b ∧ unmarshalCache b = some r) ∧
    ((loadWeatherCache file cache).1 = false →
      loadWeatherCache file cache = (false, cache)) ∧
    (∀ b r, file = some b → unmarshalCache b = some r →
      loadWeatherCache file cache = (true, r)) := by
  refine ⟨?_, ?_, ?_⟩
  · cases file with
    | none => simp [loadWeatherCache]
    | some b =>
        cases hb : unmarshalCache b with
        | none => simp [loadWeatherCache, hb]
        | some r => simp [loadWeatherCache, hb]
  · cases file with
    | none => simp [loadWeatherCache]
    | some b =>
        cases hb : unmarshalCache b with
        | none => simp [loadWeatherCache, hb]
        | some r => simp [loadWeatherCache, hb]
  · rintro b r rfl hr
    simp [loadWeatherCache, hr]

/-- Witness for C5: on a concrete populated cache, a corrupt (non-JSON)
file yields `false` and no mutation, and a well-formed file yields
`true` with the parsed reading installed. -/
theorem loadFromDisk_spec_witness :
    loadWeatherCache (some .gibberish) ⟨"x", 1, "y", 2, 3⟩
      = (false, ⟨"x", 1, "y", 2, 3⟩) ∧
    loadWeatherCache (some (.json (marshalCache ⟨"a", 4, "b", 5, 6⟩)))
      ⟨"x", 1, "y", 2, 3⟩ = (true, ⟨"a", 4, "b", 5, 6⟩) :=
  ⟨(loadFromDisk_spec (some .gibberish) ⟨"x", 1, "y", 2, 3⟩).2.1 rfl,
   (loadFromDisk_spec _ ⟨"x", 1, "y", 2, 3⟩).2.2 _ ⟨"a", 4, "b", 5, 6⟩ rfl
     (by rw [unmarshalCache, decodeCache_marshalCache])⟩

/-- C7: `saveToDisk` runs entirely under the read lock, writes the
serialized reading only to the temp path (never to the canonical path),
the temp path sits in the same directory (`data`) as the target, and on
success the trace is exactly write-temp-then-rename-over-canonical. -/
theorem saveToDisk_temp_then_rename (cache : WeatherCache)
    (mkdirOk writeOk : Bool) :
    ((saveWeatherCacheTrace cache mkdirOk writeOk).1.all fun st =>
        match st with
        | .writeFile p _ => p == tempFile
        | _ => true) = true ∧
    tempFile ≠ weatherCacheFile ∧
    dirOf tempFile = "data" ∧ dirOf weatherCacheFile = "data" ∧
    (saveWeatherCacheTrace cache mkdirOk writeOk).1.head? = some .rLock ∧
    (saveWeatherCacheTrace cache mkdirOk writeOk).1.getLast? = some .rUnlock ∧
    ((saveWeatherCacheTrace cache mkdirOk writeOk).1.all fun st =>
        match st with
        | .rename src dst => src == tempFile && dst == weatherCacheFile
        | _ => true) = true ∧
    ((saveWeatherCacheTrace cache mkdirOk writeOk).2 = true →
      (saveWeatherCacheTrace cache mkdirOk writeOk).1 =
        [.rLock, .mkdirAll "data",
         .writeFile tempFile (.json (marshalCache cache)),
         .rename tempFile weatherCacheFile, .rUnlock]) := by
  cases mkdirOk <;> cases writeOk <;>
    simp [saveWeatherCacheTrace] <;> decide

/-- Witness for C7: the successful save of a concrete reading is exactly
lock, mkdir, write-temp, rename, unlock. -/
theorem saveToDisk_temp_then_rename_witness :
    (saveWeatherCacheTrace ⟨"x", 1, "y", 2, 3⟩ true true).1 =
      [.rLock, .mkdirAll "data",
       .writeFile tempFile (.json (marshalCache ⟨"x", 1, "y", 2, 3⟩)),
       .rename tempFile weatherCacheFile, .rUnlock] :=
  (saveToDisk_temp_then_rename ⟨"x", 1, "y", 2, 3⟩ true true).2.2.2.2.2.2.2 rfl

/-- C3: both cache writers (the refresher's update and the
load-from-disk install) are a single exclusive-lock critical section
storing all five fields; the installed cache never mixes old and new
fields; and a successful fetch cycle run at a strictly later clock
instant strictly increases `updatedAt`. -/
theorem cache_writes_atomic_and_monotone :
    (atomicFullWrite updateWriteTrace = true ∧
     atomicFullWrite loadInstallTrace = true) ∧
    (∀ outcomes now saveOk s loc temp cond hum,
      (fetchWeatherFromAPI outcomes).result = .ok (loc, temp, cond, hum) →
      (updateWeatherCache outcomes now saveOk s).cache
        = ⟨loc, temp, cond, hum, now⟩) ∧
    (∀ b r cache, unmarshalCache b = some r →
      loadWeatherCache (some b) cache = (true, r)) ∧
    (∀ outcomes now saveOk s r,
      (fetchWeatherFromAPI outcomes).result = .ok r →
      s.cache.updated < now →
      s.cache.updated < (updateWeatherCache outcomes now saveOk s).cache.updated) := by
  have hupd : ∀ outcomes now saveOk s loc temp cond hum,
      (fetchWeatherFromAPI outcomes).result = .ok (loc, temp, cond, hum) →
      (updateWeatherCache outcomes now saveOk s).cache
        = ⟨loc, temp, cond, hum, now⟩ := by
    intro outcomes now saveOk s loc temp cond hum h
    unfold updateWeatherCache
    rw [h]
    cases saveOk <;> rfl
  refine ⟨⟨by decide, by decide⟩, hupd, ?_, ?_⟩
  · intro b r cache hr
    simp [loadWeatherCache, hr]
  · intro outcomes now saveOk s r h hlt
    obtain ⟨loc, temp, cond, hum⟩ := r
    rw [hupd outcomes now saveOk s loc temp cond hum h]
    exact hlt

/-- Witness for C3: a concrete successful cycle at clock 42 over a cache
last updated at 3 installs the fetched reading wholesale and strictly
increases the timestamp. -/
theorem cache_writes_atomic_and_monotone_witness :
    (updateWeatherCache (fun _ => .response 200 (.json sampleBody)) 42 true
      ⟨⟨"x", 1, "y", 2, 3⟩, none⟩).cache = ⟨"Sleman", 25, "Sunny", 80, 42⟩ ∧
    (3 : Nat) < (updateWeatherCache (fun _ => .response 200 (.json sampleBody))
      42 true ⟨⟨"x", 1, "y", 2, 3⟩, none⟩).cache.updated :=
  ⟨cache_writes_atomic_and_monotone.2.1
     (fun _ => .response 200 (.json sampleBody)) 42 true
     ⟨⟨"x", 1, "y", 2, 3⟩, none⟩ "Sleman" 25 "Sunny" 80 rfl,
   cache_writes_atomic_and_monotone.2.2.2
     (fun _ => .response 200 (.json sampleBody)) 42 true
     ⟨⟨"x", 1, "y", 2, 3⟩, none⟩ ("Sleman", 25, "Sunny", 80) rfl (by decide)⟩

/-- C6 counterexample: a successful fetch cycle whose response carries an
empty nearest-area name populates the cache with location `""`; `read()`
on that populated cache returns the sentinel, not the stored
snapshot. -/
theorem read_populated_sentinel_counterexample :
    (fetchWeatherFromAPI (fun _ => .response 200 (.json emptyAreaNameBody))).result
      = .ok ("", 25, "Sunny", 80) ∧
    (updateWeatherCache (fun _ => .response 200 (.json emptyAreaNameBody)) 42 true
      ⟨emptyCache, none⟩).cache = ⟨"", 25, "Sunny", 80, 42⟩ ∧
    getWeather ⟨"", 25, "Sunny", 80, 42⟩ = ("Sleman", 0, "loading...", 0) ∧
    getWeather ⟨"", 25, "Sunny", 80, 42⟩
      ≠ (("" : String), (25 : Int), "Sunny", (80 : Int)) :=
  ⟨rfl, rfl, rfl, by decide⟩

/-- C6 amended: `read()` returns the sentinel — the configured location
`"Sleman"`, temperature 0, condition `"loading..."`, humidity 0 —
exactly when the stored location is the empty string (in particular on a
never-populated cache), and returns the current snapshot whenever the
stored location is non-empty. -/
theorem read_sentinel_or_snapshot (c : WeatherCache) :
    weatherLocation = "Sleman" ∧
    getWeather emptyCache = (weatherLocation, 0, "loading...", 0) ∧
    (c.location = "" → getWeather c = (weatherLocation, 0, "loading...", 0)) ∧
    (c.location ≠ "" →
      getWeather c = (c.location, c.temperature, c.condition, c.humidity)) := by
  refine ⟨rfl, rfl, ?_, ?_⟩ <;> intro h <;> simp [getWeather, h]

/-- Witness for C6 amended: the sentinel on a concrete empty-location
cache and the snapshot on a concrete populated one. -/
theorem read_sentinel_or_snapshot_witness :
    getWeather ⟨"", 7, "Haze", 9, 1⟩ = (weatherLocation, 0, "loading...", 0) ∧
    getWeather ⟨"Berlin", 5, "Rain", 70, 9⟩ = ("Berlin", 5, "Rain", 70) :=
  ⟨(read_sentinel_or_snapshot ⟨"", 7, "Haze", 9, 1⟩).2.2.1 rfl,
   (read_sentinel_or_snapshot ⟨"Berlin", 5, "Rain", 70, 9⟩).2.2.2 (by decide)⟩

/-- C1 counterexample: when all three attempts fail with HTTP 500, the
two backoff sleeps and the three GETs happen as claimed, but the
returned error is the HTTP-status message, which does not describe the
number of attempts. -/
theorem retries_error_message_counterexample :
    (fetchWeatherFromAPI (fun _ => .response 500 .gibberish)).gets = 3 ∧
    (fetchWeatherFromAPI (fun _ => .response 500 .gibberish)).delays = [1, 2] ∧
    (fetchWeatherFromAPI (fun _ => .response 500 .gibberish)).result
      = .error (.httpStatus 500) ∧
    errMsg (.httpStatus 500) = "HTTP 500 after retries" ∧
    mentionsNat (errMsg (.httpStatus 500)) maxRetries = false :=
  ⟨rfl, rfl, rfl, rfl, by decide⟩

/-- C1 amended: one GET per attempt up to 3 attempts; when the first 200
lands on attempt `i`, exactly `i` GETs happen with sleeps
`2^0, …, 2^(i-2)` seconds in between; when no attempt succeeds, 3 GETs
happen with sleeps of 1s and 2s and no sleep after the last, and the
error names the attempt count if the final attempt was a transport
error, but names only the HTTP status if the final attempt returned a
non-200 response. -/
theorem fetch_retry_schedule (outcomes : Nat → AttemptOutcome) :
    (fetchWeatherFromAPI outcomes).gets ≤ maxRetries ∧
    (∀ i, decidingAttempt outcomes = some i →
      (fetchWeatherFromAPI outcomes).gets = i ∧
      (fetchWeatherFromAPI outcomes).delays
        = (List.range (i - 1)).map (2 ^ ·)) ∧
    (decidingAttempt outcomes = none →
      (fetchWeatherFromAPI outcomes).gets = maxRetries ∧
      (fetchWeatherFromAPI outcomes).delays = [1, 2] ∧
      (outcomes maxRetries = .transportError →
        (fetchWeatherFromAPI outcomes).result
          = .error (.failedAfterRetries maxRetries) ∧
        mentionsNat (errMsg (.failedAfterRetries maxRetries)) maxRetries
          = true) ∧
      (∀ code body, outcomes maxRetries = .response code body →
        (fetchWeatherFromAPI outcomes).result
          = .error (.httpStatus code))) := by
  rw [fetch_cases]
  unfold decidingAttempt
  by_cases h1 : isHit (outcomes 1)
  · rw [if_pos h1, if_pos h1]
    refine ⟨by norm_num [maxRetries], ?_, by simp⟩
    intro i hi
    obtain rfl : (1 : Nat) = i := Option.some.inj hi
    exact ⟨rfl, rfl⟩
  · rw [if_neg h1, if_neg h1]
    by_cases h2 : isHit (outcomes 2)
    · rw [if_pos h2, if_pos h2]
      refine ⟨by norm_num [maxRetries], ?_, by simp⟩
      intro i hi
      obtain rfl : (2 : Nat) = i := Option.some.inj hi
      refine ⟨rfl, ?_⟩
      show ([1] : List Nat) = List.map (fun x => 2 ^ x) (List.range (2 - 1))
      decide
    · rw [if_neg h2, if_neg h2]
      by_cases h3 : isHit (outcomes 3)
      · rw [if_pos h3]
        refine ⟨by norm_num [maxRetries], ?_, by simp⟩
        intro i hi
        obtain rfl : (3 : Nat) = i := Option.some.inj hi
        refine ⟨rfl, ?_⟩
        show ([1, 2] : List Nat) = List.map (fun x => 2 ^ x) (List.range (3 - 1))
        decide
      · rw [if_neg h3]
        refine ⟨by norm_num [maxRetries], by simp, ?_⟩
        intro _
        refine ⟨rfl, rfl, ?_, ?_⟩
        · intro ht
          have ht3 : outcomes 3 = AttemptOutcome.transportError := ht
          refine ⟨?_, by decide⟩
          show finishFetch (outcomes 3) = _
          rw [ht3]
          rfl
        · intro code body hr
          have hr3 : outcomes 3 = AttemptOutcome.response code body := hr
          have hc : code ≠ 200 := by
            rw [hr3] at h3
            simpa [isHit] using h3
          show finishFetch (outcomes 3) = _
          rw [hr3]
          simp only [finishFetch]
          rw [if_neg hc]

/-- Witness for C1 amended: three straight transport errors give 3 GETs,
sleeps of 1s and 2s, and the attempt-count error; a first-attempt
success gives one GET and no sleep. -/
theorem fetch_retry_schedule_witness :
    (fetchWeatherFromAPI (fun _ => .transportError)).gets = maxRetries ∧
    (fetchWeatherFromAPI (fun _ => .transportError)).delays = [1, 2] ∧
    (fetchWeatherFromAPI (fun _ => .transportError)).result
      = .error (.failedAfterRetries maxRetries) ∧
    mentionsNat (errMsg (.failedAfterRetries maxRetries)) maxRetries = true ∧
    (fetchWeatherFromAPI (fun _ => .response 200 (.json sampleBody))).gets = 1 ∧
    (fetchWeatherFromAPI (fun _ => .response 200 (.json sampleBody))).delays
      = [] := by
  have h := (fetch_retry_schedule (fun _ => .transportError)).2.2 rfl
  have h1 := (fetch_retry_schedule
    (fun _ => .response 200 (.json sampleBody))).2.1 1 rfl
  exact ⟨h.1, h.2.1, (h.2.2.1 rfl).1, (h.2.2.1 rfl).2, h1.1, h1.2⟩

/-- C8: the fetch returns without error exactly when some attempt gets
HTTP 200 — the first such attempt being the deciding one — and that
attempt's body unmarshals into the expected JSON shape with at least one
current-condition entry; a failure of any of these on the deciding
attempt means an error. -/
theorem fetch_ok_iff (outcomes : Nat → AttemptOutcome) :
    (∃ r, (fetchWeatherFromAPI outcomes).result = .ok r) ↔
    (∃ i, 1 ≤ i ∧ i ≤ maxRetries ∧ isHit (outcomes i) = true ∧
      (∀ j, 1 ≤ j → j < i → isHit (outcomes j) = false) ∧
      ∃ b, bodyOf (outcomes i) = some b ∧ goodBody b = true) := by
  rw [fetch_cases]
  by_cases h1 : isHit (outcomes 1)
  · rw [if_pos h1]
    constructor
    · intro hok
      exact ⟨1, le_refl 1, by norm_num [maxRetries], h1,
        fun j hj1 hj2 => absurd (lt_of_le_of_lt hj1 hj2) (lt_irrefl 1),
        ((finishFetch_ok_iff (outcomes 1)).mp hok).2⟩
    · rintro ⟨i, hi1, hi3, hhit, hmin, hbody⟩
      rcases Nat.lt_or_ge 1 i with hgt | hle
      · have hf := hmin 1 (le_refl 1) hgt
        rw [hf] at h1
        exact absurd h1 (by simp)
      · have : i = 1 := Nat.le_antisymm hle hi1
        subst this
        exact (finishFetch_ok_iff (outcomes 1)).mpr ⟨hhit, hbody⟩
  · rw [if_neg h1]
    by_cases h2 : isHit (outcomes 2)
    · rw [if_pos h2]
      constructor
      · intro hok
        refine ⟨2, by norm_num, by norm_num [maxRetries], h2, ?_,
          ((finishFetch_ok_iff (outcomes 2)).mp hok).2⟩
        intro j hj1 hj2
        obtain rfl : j = 1 := by omega
        simpa using h1
      · rintro ⟨i, hi1, hi3, hhit, hmin, hbody⟩
        norm_num [maxRetries] at hi3
        interval_cases i
        · exact absurd hhit h1
        · exact (finishFetch_ok_iff (outcomes 2)).mpr ⟨hhit, hbody⟩
        · have hf := hmin 2 (by norm_num) (by norm_num)
          rw [hf] at h2
          exact absurd h2 (by simp)
    · rw [if_neg h2]
      by_cases h3 : isHit (outcomes 3)
      · constructor
        · intro hok
          refine ⟨3, by norm_num, by norm_num [maxRetries], h3, ?_,
            ((finishFetch_ok_iff (outcomes 3)).mp hok).2⟩
          intro j hj1 hj2
          have : j = 1 ∨ j = 2 := by omega
          rcases this with rfl | rfl
          · simpa using h1
          · simpa using h2
        · rintro ⟨i, hi1, hi3, hhit, hmin, hbody⟩
          norm_num [maxRetries] at hi3
          interval_cases i
          · exact absurd hhit h1
          · exact absurd hhit h2
          · exact (finishFetch_ok_iff (outcomes 3)).mpr ⟨hhit, hbody⟩
      · constructor
        · intro hok
          exact absurd ((finishFetch_ok_iff (outcomes 3)).mp hok).1 h3
        · rintro ⟨i, hi1, hi3, hhit, hmin, hbody⟩
          norm_num [maxRetries] at hi3
          interval_cases i
          · exact absurd hhit h1
          · exact absurd hhit h2
          · exact absurd hhit h3

/-- Witness for C8: a first-attempt 200 with a well-formed body yields a
value. -/
theorem fetch_ok_iff_witness :
    ∃ r, (fetchWeatherFromAPI
      (fun _ => .response 200 (.json sampleBody))).result = .ok r :=
  (fetch_ok_iff (fun _ => .response 200 (.json sampleBody))).mpr
    ⟨1, le_refl 1, by norm_num [maxRetries], rfl,
     fun j hj1 hj2 => absurd (lt_of_le_of_lt hj1 hj2) (lt_irrefl 1),
     .json sampleBody, rfl, rfl⟩

/-- C9: for a successfully fetched and parsed response, field extraction
is total with defaults — the configured location when there is no
nearest-area name, `"Unknown"` on an empty weather-description list, and
`0` for non-numeric temperature or humidity strings — and the fetch
still returns the reading without error. -/
theorem extraction_defaults (outcomes : Nat → AttemptOutcome) (i : Nat)
    (b : FileBytes) (data : WttrResponse) (cc : CurrentCondition)
    (rest : List CurrentCondition)
    (hi : decidingAttempt outcomes = some i)
    (hb : bodyOf (outcomes i) = some b)
    (hp : parseWttr b = some data)
    (hcc : data.currentCondition = cc :: rest) :
    (fetchWeatherFromAPI outcomes).result = .ok (extractReading data cc) ∧
    (noAreaName data = true → (extractReading data cc).1 = weatherLocation) ∧
    (cc.weatherDesc = [] → (extractReading data cc).2.2.1 = "Unknown") ∧
    (goIsNumeral cc.tempC = false → (extractReading data cc).2.1 = 0) ∧
    (goIsNumeral cc.humidity = false →
      (extractReading data cc).2.2.2 = 0) := by
  refine ⟨?_, ?_, ?_, ?_, ?_⟩
  · rw [fetch_deciding outcomes i hi]
    have hhit := decidingAttempt_isHit outcomes i hi
    cases ho : outcomes i with
    | transportError =>
        rw [ho] at hhit
        exact absurd hhit (by simp [isHit])
    | response code body =>
        rw [ho] at hhit hb
        have hcode : code = 200 := by simpa [isHit] using hhit
        subst hcode
        obtain rfl : body = b := by simpa [bodyOf] using hb
        simp [finishFetch, hp, hcc]
  · intro hna
    cases hd : data.nearestArea with
    | nil => simp [extractReading, hd]
    | cons a as =>
        unfold noAreaName at hna
        rw [hd] at hna
        simp only [List.isEmpty_iff] at hna
        simp [extractReading, hd, hna]
  · intro hwd
    simp [extractReading, hwd]
  · intro ht
    simp [extractReading, goAtoi_of_not_numeral _ ht]
  · intro hh
    simp [extractReading, goAtoi_of_not_numeral _ hh]

/-- Witness for C9: a concrete response with no nearest-area entry, an
empty weather description, and non-numeric temperature and humidity
strings yields location `"Sleman"`, condition `"Unknown"`, temperature 0
and humidity 0, with no fetch error. -/
theorem extraction_defaults_witness :
    (fetchWeatherFromAPI (fun _ => .response 200 (.json defaultsBody))).result
      = .ok (extractReading ⟨[], [⟨"abc", "", []⟩]⟩ ⟨"abc", "", []⟩) ∧
    (extractReading ⟨[], [⟨"abc", "", []⟩]⟩ ⟨"abc", "", []⟩).1
      = weatherLocation ∧
    (extractReading ⟨[], [⟨"abc", "", []⟩]⟩ ⟨"abc", "", []⟩).2.2.1
      = "Unknown" ∧
    (extractReading ⟨[], [⟨"abc", "", []⟩]⟩ ⟨"abc", "", []⟩).2.1 = 0 ∧
    (extractReading ⟨[], [⟨"abc", "", []⟩]⟩ ⟨"abc", "", []⟩).2.2.2 = 0 := by
  have h := extraction_defaults (fun _ => .response 200 (.json defaultsBody)) 1
    (.json defaultsBody) ⟨[], [⟨"abc", "", []⟩]⟩ ⟨"abc", "", []⟩ []
    rfl rfl rfl rfl
  exact ⟨h.1, h.2.1 rfl, h.2.2.1 rfl, h.2.2.2.1 rfl, h.2.2.2.2 rfl⟩

end NothingToDo
